import Mathlib

/-!
Shallow embedding of the csv-fileupload ingestion pipeline.

Rows read by csv.DictReader and rows stored in MySQL tables are modelled as
association lists from column name to value.  Each processor module of the
source is embedded as a pure function over these lists; the database
connection, cursor and transaction are replaced by explicit state passing
(the committed table is a list of rows, a failed batch restores it), and
fallible operating-system calls are driven by explicit oracles.
-/

/-- A CSV row or a stored table row: an association list from column name to
value, mirroring the dicts produced by csv.DictReader and the rows returned
by the MySQL cursor. -/
abbrev Row := List (String × String)

/-- Reading a column with a default empty string, as in row.get(h, "") with
missing or empty values normalised to the empty string. -/
def getCol (r : Row) (h : String) : String := (r.lookup h).getD ""

/-- Python value.strip(): drop whitespace from both ends, modelled
structurally over the character list so that proofs can evaluate it. -/
def pyStrip (s : String) : String :=
  ⟨((s.data.dropWhile Char.isWhitespace).reverse.dropWhile
      Char.isWhitespace).reverse⟩

namespace Glassreport

/-- The expected glassreport headers from GLASSREPORTProcessor.upload_csv_data.
After step 2 of upload_csv_data the file always begins with exactly this
header line, so actual_headers always equals this list. -/
def expectedHeaders : List String :=
  ["order_date", "list_date", "sealed_unit_id", "ot", "window_type", "line1",
   "line2", "line3", "grills", "spacer", "dealer", "glass_comment", "tag",
   "zones", "u_value", "solar_heat_gain", "visual_trasmittance",
   "energy_rating", "glass_type", "order", "width", "height", "qty",
   "description", "note1", "note2", "rack_id", "complete", "shipping"]

/-- The complete_row built in the classification loop: one value per expected
header, with the per-column whitespace handling whose net effect is
value.strip(). -/
def completeRow (r : Row) : Row :=
  expectedHeaders.map fun h => (h, pyStrip (getCol r h))

/-- Classification outcome of one data row. -/
inductive RowClass
  | New
  | Duplicate
  | Resend
deriving DecidableEq, Repr

/-- The WHERE clause of the duplicate query: order and sealed_unit_id both
equal the values of the incoming row. -/
def dupMatch (oid su : String) (t : Row) : Bool :=
  getCol t "order" == oid && getCol t "sealed_unit_id" == su

/-- The WHERE clause of the resend query: order alone equals the incoming
value. -/
def orderMatch (oid : String) (t : Row) : Bool :=
  getCol t "order" == oid

/-- Per-row classification against the stored table, mirroring the two
guarded SELECT queries of the loop: both key fields non-empty and a stored
match on both fields means Duplicate; otherwise a non-empty order with a
stored match on order alone means Resend; everything else is a new row. -/
def classify (table : List Row) (cr : Row) : RowClass :=
  let oid := getCol cr "order"
  let su := getCol cr "sealed_unit_id"
  if oid != "" && su != "" && table.any (dupMatch oid su) then .Duplicate
  else if oid != "" && table.any (orderMatch oid) then .Resend
  else .New

/-- An entry of the duplicates list passed to notify_duplicate. -/
structure DupEntry where
  order : String
  sealed_unit_id : String
  original_date : String
deriving DecidableEq, Repr

/-- The original date read from the stored row, with the falsy check that
turns an empty value into "Unknown". -/
def origDate (d : String) : String := if d = "" then "Unknown" else d

/-- The duplicates list entry produced for one row, when the duplicate query
runs and finds a stored match (list_date of the first match). -/
def dupEntryFor (table : List Row) (cr : Row) : Option DupEntry :=
  let oid := getCol cr "order"
  let su := getCol cr "sealed_unit_id"
  if oid != "" && su != "" then
    (table.find? (dupMatch oid su)).map fun t =>
      { order := oid, sealed_unit_id := su,
        original_date := origDate (getCol t "list_date") }
  else none

/-- An entry of the resend_orders list passed to notify_resend. -/
structure ResendEntry where
  order : String
  original_date : String
deriving DecidableEq, Repr

/-- The resend_orders entry produced for one row: only when the row was not
flagged Duplicate and the order-only query finds a stored match. -/
def resendEntryFor (table : List Row) (cr : Row) : Option ResendEntry :=
  let oid := getCol cr "order"
  let su := getCol cr "sealed_unit_id"
  let isDup := oid != "" && su != "" && table.any (dupMatch oid su)
  if oid != "" && !isDup then
    (table.find? (orderMatch oid)).map fun t =>
      { order := oid, original_date := origDate (getCol t "list_date") }
  else none

/-- Step 4 of upload_csv_data: one cursor.execute INSERT per collected row.
failIdx is the index at which the driver raises; none is returned when an
insert raised, and the transaction is then rolled back by the caller. -/
def execInserts (failIdx : Option Nat) : List Row → Nat → Option (List Row)
  | [], _ => some []
  | r :: rs, i =>
    if failIdx == some i then none
    else (execInserts failIdx rs (i + 1)).map (r :: ·)

/-- Observable outcome of GLASSREPORTProcessor.upload_csv_data: the return
value, the committed table and the classification data collected in step 3. -/
structure UploadResult where
  ok : Bool
  table : List Row
  classes : List RowClass
  duplicates : List DupEntry
  resends : List ResendEntry
deriving DecidableEq, Repr

/-- GLASSREPORTProcessor.upload_csv_data, steps 3 and 4: every file row is
first classified against the stored table (no insert has run yet, so the
queries see only previously stored rows), every row is appended to
rows_to_insert, and only then is the whole batch inserted and committed; a
failing insert rolls the transaction back and the function returns False. -/
def uploadCsvData (failIdx : Option Nat) (table : List Row)
    (fileRows : List Row) : UploadResult :=
  let crs := fileRows.map completeRow
  let classes := crs.map (classify table)
  let dups := crs.filterMap (dupEntryFor table)
  let res := crs.filterMap (resendEntryFor table)
  match execInserts failIdx crs 0 with
  | some inserted =>
    { ok := true, table := table ++ inserted, classes := classes,
      duplicates := dups, resends := res }
  | none =>
    { ok := false, table := table, classes := classes,
      duplicates := dups, resends := res }

/-- The example file of the spec scenario: two data rows sharing order 1001
and sealed_unit_id A1. -/
def sampleFile : List Row :=
  [[("order", "1001"), ("sealed_unit_id", "A1"), ("list_date", "2024-01-01")],
   [("order", "1001"), ("sealed_unit_id", "A1"), ("list_date", "2024-01-01")]]

/-- A ten-row file used to exercise batch atomicity. -/
def tenRows : List Row :=
  (List.range 10).map fun i => [("order", toString (1000 + i))]

end Glassreport

namespace Workorder2

/-- The expected WORKORDER2 headers; after step 2 of upload_csv_data the file
always begins with exactly this header line. -/
def expectedHeaders : List String :=
  ["ORDER #", "PO", "TAG", "DEALER", "ORDER DATE", "DUE DATE",
   "WINDOW DESCRIPTION", "DESCRIPTION", "OPTIONS", "QTY", "LINE #1", "NOTE"]

/-- db_columns: every header except OPTIONS. -/
def dbColumns : List String := expectedHeaders.filter (fun h => h != "OPTIONS")

/-- The complete_row of the loop: missing and None values become empty
strings, and DESCRIPTION is replaced by DESCRIPTION##OPTIONS when OPTIONS is
non-empty. -/
def completeRow (r : Row) : Row :=
  expectedHeaders.map fun h =>
    (h,
      if h == "DESCRIPTION" then
        let d := getCol r "DESCRIPTION"
        let o := getCol r "OPTIONS"
        if o == "" then d else d ++ "##" ++ o
      else getCol r h)

/-- The WHERE clause used by both the duplicate SELECT and the DELETE. -/
def orderMatch (oid : String) (t : Row) : Bool :=
  getCol t "ORDER #" == oid

/-- The values tuple of the INSERT: the complete_row restricted to
db_columns. -/
def projectRow (cr : Row) : Row := dbColumns.map fun h => (h, getCol cr h)

/-- One iteration of the duplicate-handling loop.  The state is the live
table (the committed table with the deletes already executed by this
transaction applied, which later SELECTs of the same transaction see) and
the pending rows_to_insert list.  A row without ORDER # is skipped; when
stored rows share its ORDER # they are all deleted; in both remaining cases
the row is appended to rows_to_insert. -/
def processRow (st : List Row × List Row) (r : Row) : List Row × List Row :=
  let cr := completeRow r
  let oid := getCol cr "ORDER #"
  if oid == "" then st
  else if st.1.any (orderMatch oid) then
    (st.1.filter (fun t => !orderMatch oid t), st.2 ++ [projectRow cr])
  else
    (st.1, st.2 ++ [projectRow cr])

/-- WORKORDER2Processor.upload_csv_data, steps 3 and 4, success path: the
loop runs over all file rows, then the collected rows are inserted and the
transaction (deletes and inserts) is committed. -/
def uploadCsvData (table : List Row) (fileRows : List Row) : List Row :=
  let st := fileRows.foldl processRow (table, [])
  st.1 ++ st.2

end Workorder2

namespace Ordersummary

/-- The expected ORDERSUMMARY headers; after step 2 of upload_csv_data the
file always begins with exactly this header line, and db_columns equals this
list (protected_columns is empty). -/
def expectedHeaders : List String :=
  ["ORDER#", "CUST PO", "COMPANY", "ORDER DATE", "DUE DATE", "LIVE_TEST",
   "AW-V", "CAW-V", "CCS-L", "CCS-R", "CECS-L", "CECS-R", "CS-L", "CS-R",
   "CSHAPE", "CV-F", "DES", "DESLO", "DWIND", "SDWIND", "SHO", "SLO", "SU",
   "SU1", "SUSHP", "V-A", "V-AO", "V-B", "V-BLO", "V-C", "V-F", "V-LCS",
   "V-SF", "V-SH", "V-SHO", "V-SLO", "V-SLOO", "V-SLOS", "V-SSO", "V-SS",
   "V-SLOR", "V-SS-R", "V-SSOR", "VSLOSR", "DES4", "DESLO4", "SH", "SS",
   "SS-R", "SSO", "SLO-R", "SSO-R", "SLOO", "SLOS", "SLOSR", "DH", "SHP-SH",
   "SHAPE", "CV-SF", "WINDOW1", "WINDOW2", "WINDOW3", "WINDOW4", "WINDOW5",
   "WINDOW6", "WINDOW7", "WINDOW8", "BRICKMOULD", "EXT", "CASING", "ROSETTE",
   "GRILL", "SDL", "COLOUR IN", "COLOUR OUT", "RUBBER COLOUR", "BAY", "BOW",
   "PATIO DOOR", "PATIO DOOR OPTIONS", "EX_COL1", "EX_COL2", "EX_COL3",
   "EX_COL4", "EX_COL5", "CORNER_DR", "USER NAME", "LIST DATE", "COMPLETE",
   "STATUS", "P_BOTTERO", "P_URBAN", "P_CASING", "P_SCREEN", "P_GLASSTOP",
   "P_SLCOVERS", "P_EXTENSION", "NOTE", "BOOKING_DATE", "COLOUR_BATCH_NO",
   "COLOUR_CUT_DATE"]

/-- A stored ordersummary row: column values may be SQL NULL (none). -/
abbrev SRow := List (String × Option String)

/-- Reading a stored column, with an absent column read as NULL, as
existing_row_dict.get(col) reads as None. -/
def getStored (t : SRow) (h : String) : Option String := (t.lookup h).getD none

/-- The update condition of the loop: existing value is NULL or the empty
string. -/
def isBlank : Option String → Bool
  | none => true
  | some s => s == ""

/-- The complete_row of the loop: missing and None values become empty
strings and every column is stripped of surrounding whitespace. -/
def completeRow (r : Row) : Row :=
  expectedHeaders.map fun h => (h, pyStrip (getCol r h))

/-- The WHERE clause on the natural key: stored ORDER# equals the incoming
value (an SQL NULL never matches). -/
def keyMatch (oid : String) (t : SRow) : Bool :=
  getStored t "ORDER#" == some oid

/-- update_columns: the db_columns whose value in the first matching stored
row is NULL or empty. -/
def updateCols (ex : SRow) : List String :=
  expectedHeaders.filter fun h => isBlank (getStored ex h)

/-- The UPDATE statement applied to one stored row: each named column is set
to the incoming value, every other column keeps its stored value. -/
def applyUpdate (cols : List String) (cr : Row) (t : SRow) : SRow :=
  t.map fun p =>
    if cols.contains p.1 then (p.1, some (getCol cr p.1)) else p

/-- The INSERT of a new row: one value per db column, never NULL. -/
def insertValues (cr : Row) : SRow :=
  expectedHeaders.map fun h => (h, some (getCol cr h))

/-- One iteration of the ORDERSUMMARY loop, executed directly against the
live table.  order_id is bound from complete_row before the trim loop runs,
so the skip check and the SELECT/UPDATE key use the raw, untrimmed ORDER#
value, while the update and insert values come from the trimmed
complete_row.  A row without ORDER# is skipped; when a stored row matches,
the update_columns are computed from the first match and the UPDATE rewrites
every matching row (skipped entirely when update_columns is empty);
otherwise the row is inserted. -/
def processRow (tbl : List SRow) (r : Row) : List SRow :=
  let cr := completeRow r
  let oid := getCol r "ORDER#"
  if oid == "" then tbl
  else
    match tbl.find? (keyMatch oid) with
    | some ex =>
      let cols := updateCols ex
      if cols.isEmpty then tbl
      else tbl.map fun t => if keyMatch oid t then applyUpdate cols cr t else t
    | none => tbl ++ [insertValues cr]

/-- ORDERSUMMARYProcessor.upload_csv_data, step 3 with the final commit: the
rows are processed in file order against the live table. -/
def uploadCsvData (tbl : List SRow) (fileRows : List Row) : List SRow :=
  fileRows.foldl processRow tbl

/-- A stored row for the update-if-blank scenario: ORDER# 1001, CUST PO
populated with X, every other column empty. -/
def scenarioStored : SRow :=
  expectedHeaders.map fun h =>
    (h,
      if h == "ORDER#" then some "1001"
      else if h == "CUST PO" then some "X"
      else some "")

/-- The loaded row of the scenario: the same ORDER#, with CUST PO and
COMPANY both populated. -/
def scenarioRow : Row :=
  [("ORDER#", "1001"), ("CUST PO", "NEW"), ("COMPANY", "NEWCO")]

end Ordersummary

namespace Provisioning

/-- A provisioned table schema: the physical column names in order.  The
whole schema state is Option Schema, none when the table is absent. -/
abbrev Schema := List String

/-- Column-name sanitisation of DatabaseService._create_table: replace every
space by an underscore (modelled character by character so that proofs can
evaluate it). -/
def cleanHeader (h : String) : String :=
  ⟨h.data.map fun c => if c = ' ' then '_' else c⟩

/-- The physical columns created by DatabaseService._create_table from a
header list: the surrogate id column, one column per sanitised header, and
the created_at timestamp column. -/
def buildColumns (headers : List String) : Schema :=
  "id" :: headers.map cleanHeader ++ ["created_at"]

/-- The provisioning step of DatabaseService.upload_csv_data: when the table
does not exist it is created from the header list; when it exists, nothing
is done to it. -/
def provision (schema : Option Schema) (headers : List String) : Option Schema :=
  match schema with
  | some s => some s
  | none => some (buildColumns headers)

end Provisioning

namespace Monitor

/-- Status of one worker thread running FolderMonitor.process_file for a
fixed file path. -/
inductive WStatus
  | pending
  | running
  | skipped
  | done
deriving DecidableEq, Repr, Fintype

/-- The shared state for that path plus the two worker statuses: inflight
tells whether the path is in the shared processed_files set. -/
structure MState where
  inflight : Bool
  w1 : WStatus
  w2 : WStatus
deriving DecidableEq, Repr, Fintype

/-- One atomic step of a worker.  A pending worker executes the first locked
section of process_file: if the path is already in the set it returns False
and is skipped, otherwise it inserts the path and starts running.  A running
worker finishes processing and executes the finally block, removing the path
from the set under the lock.  Skipped and done workers take no further
steps. -/
def stepWorker : Bool × WStatus → Bool × WStatus
  | (inflight, .pending) =>
    if inflight then (inflight, .skipped) else (true, .running)
  | (_, .running) => (false, .done)
  | (inflight, s) => (inflight, s)

/-- Scheduling one step: false steps worker 1, true steps worker 2. -/
def step (s : MState) : Bool → MState
  | false =>
    let r := stepWorker (s.inflight, s.w1)
    { s with inflight := r.1, w1 := r.2 }
  | true =>
    let r := stepWorker (s.inflight, s.w2)
    { s with inflight := r.1, w2 := r.2 }

/-- Running a whole schedule. -/
def run (s : MState) : List Bool → MState
  | [] => s
  | a :: rest => run (step s a) rest

/-- Both detections of the same path are submitted, neither has entered
process_file yet, and the path is not in the set. -/
def initState : MState := { inflight := false, w1 := .pending, w2 := .pending }

/-- Whether a worker (ever) executed the load for the file. -/
def executed : WStatus → Bool
  | .running => true
  | .done => true
  | _ => false

end Monitor

namespace Transfer

/-- The filesystem and database facts FolderMonitor._transfer_file_safely can
touch: existence and byte size of source and destination, whether the source
was renamed to its .processed name, and the row count the already-committed
load left in the table (never touched by the transfer). -/
structure FsState where
  srcExists : Bool
  srcSize : Nat
  dstExists : Bool
  dstSize : Nat
  srcMarked : Bool
  dbRows : Nat
deriving DecidableEq, Repr

/-- Outcomes of the fallible operating-system calls: whether the atomic
rename succeeds, how many bytes shutil.copy2 leaves at the destination (a
partial copy when it fails mid-way), whether src.unlink succeeds, and
whether the fallback rename to the .processed name succeeds. -/
structure Oracle where
  renameOk : Bool
  copiedSize : Nat
  unlinkOk : Bool
  markOk : Bool
deriving DecidableEq, Repr

/-- FolderMonitor._transfer_file_safely: atomic rename first; on OSError a
copy followed by a byte-size verification; a failed verification raises
IOError, caught by the outer handler which deletes the partial destination
copy and returns False; a passed verification deletes the source, falling
back to the .processed rename (and to leaving the source in place when even
that raises), and returns True. -/
def transferFileSafely (o : Oracle) (s : FsState) : Bool × FsState :=
  if o.renameOk then
    (true, { s with srcExists := false, dstExists := true, dstSize := s.srcSize })
  else
    let s1 := { s with dstExists := true, dstSize := o.copiedSize }
    if s1.dstExists && s1.dstSize == s.srcSize then
      if o.unlinkOk then (true, { s1 with srcExists := false })
      else if o.markOk then
        (true, { s1 with srcExists := false, srcMarked := true })
      else (true, s1)
    else
      (false, { s1 with dstExists := false, dstSize := 0 })

end Transfer

namespace Connect

/-- The retry loop of WINDOWSENTRYProcessor.connect (identical in CASING and
URBANCUTTING): the oracle tells whether attempt number i succeeds; the loop
makes at most fuel attempts starting at the given attempt number, sleeping
two seconds between attempts, and returns False when all fail. -/
def connectLoop (oracle : Nat → Bool) : Nat → Nat → Bool
  | 0, _ => false
  | fuel + 1, attempt =>
    if oracle attempt then true else connectLoop oracle fuel (attempt + 1)

/-- WINDOWSENTRYProcessor.connect: max_retries is 3, attempts start at 0. -/
def retryingConnect (oracle : Nat → Bool) : Bool := connectLoop oracle 3 0

/-- DatabaseService.connect and GLASSREPORTProcessor.connect: one single
mysql.connector.connect call; an Error on that first attempt immediately
returns False. -/
def singleAttemptConnect (oracle : Nat → Bool) : Bool := oracle 0

/-- A connection that fails on the first attempt and succeeds from the
second attempt on. -/
def flakyOnce : Nat → Bool := fun i => decide (1 ≤ i)

end Connect

namespace Notifier

/-- An entry of the duplicates list given to EmailNotifier.notify_duplicate
(the dict built by GLASSREPORTProcessor, minus the constant type tag). -/
structure DupEntry where
  order : String
  sealed_unit_id : String
  original_date : String
deriving DecidableEq, Repr

/-- An entry of the resends list given to EmailNotifier.notify_resend. -/
structure ResendEntry where
  order : String
  original_date : String
deriving DecidableEq, Repr

/-- One step of building the unique_duplicates dict: a new entry is recorded
only when its key is not yet present; dict values keep insertion order. -/
def insertUnique (key : α → String) (acc : List α) (d : α) : List α :=
  if acc.any (fun e => key e == key d) then acc else acc ++ [d]

/-- The deduplication both notify_duplicate and notify_resend perform before
rendering: first occurrence per key value, in insertion order.  In the
source the key is always the order field of the entry dict. -/
def dedupeByKey (key : α → String) (l : List α) : List α :=
  l.foldl (insertUnique key) []

/-- The formatted line for one duplicate entry. -/
def formatDupLine (d : DupEntry) : String :=
  "Order: " ++ d.order ++ ", Date: " ++ d.original_date

/-- The formatted line for one resend entry. -/
def formatResendLine (e : ResendEntry) : String :=
  "Order: " ++ e.order ++ ", Date: " ++ e.original_date

/-- The list of entry lines rendered into the duplicate notification body. -/
def notifyDuplicateLines (dups : List DupEntry) : List String :=
  (dedupeByKey DupEntry.order dups).map formatDupLine

/-- The list of entry lines rendered into the resend notification body. -/
def notifyResendLines (resends : List ResendEntry) : List String :=
  (dedupeByKey ResendEntry.order resends).map formatResendLine

end Notifier

namespace Uploader

/-- A record produced by OdooCsvUploader._map_row: target field name to
value, empty source values dropped. -/
abbrev Rec := List (String × String)

/-- OdooCsvUploader._build_duplicate_key: a key is produced only when the
profile has a truthy primary key, the record carries it, and its value is
truthy; the secondary component is the record value of the secondary key
when one is configured (None when absent), or the empty string. -/
def buildDuplicateKey (record : Rec) (primaryKey secondaryKey : Option String) :
    Option (String × Option String) :=
  match primaryKey with
  | none => none
  | some pk =>
    if pk == "" then none
    else
      match record.lookup pk with
      | none => none
      | some pv =>
        let sv : Option String :=
          match secondaryKey with
          | some sk => if sk == "" then some "" else record.lookup sk
          | none => some ""
        if pv == "" then none else some (pv, sv)

/-- OdooCsvUploader._is_duplicate: returns False when no model is configured,
and the remaining body is a placeholder that returns False as well. -/
def isDuplicate (model : Option String) (_key : String × Option String) : Bool :=
  match model with
  | none => false
  | some _ => false

/-- Observable counters of OdooCsvUploader._push_rows: the rows and
duplicates counters, the duplicate_records list, and how many warning log
records the duplicate branch creates at the end. -/
structure PushStats where
  rows : Nat
  duplicates : Nat
  dupRecords : List (String × Option String)
  logRecords : Nat
deriving DecidableEq, Repr

/-- One iteration of the _push_rows loop over the mapped records: an empty
record is skipped; a record whose key is built and flagged duplicate is
counted and recorded instead of being pushed; otherwise the record becomes
a payload and the rows counter grows. -/
def pushStep (model : Option String) (pk sk : Option String)
    (st : PushStats) (record : Rec) : PushStats :=
  if record.isEmpty then st
  else
    match buildDuplicateKey record pk sk with
    | some key =>
      if isDuplicate model key then
        { st with duplicates := st.duplicates + 1,
                  dupRecords := st.dupRecords ++ [key] }
      else { st with rows := st.rows + 1 }
    | none => { st with rows := st.rows + 1 }

/-- OdooCsvUploader._push_rows over the mapped records of one file: the loop
runs, then one warning log record is created when duplicate_records is
non-empty. -/
def pushRows (model : Option String) (pk sk : Option String)
    (records : List Rec) : PushStats :=
  let st := records.foldl (pushStep model pk sk)
    { rows := 0, duplicates := 0, dupRecords := [], logRecords := 0 }
  { st with logRecords := if st.dupRecords.isEmpty then 0 else 1 }

end Uploader

/-!
Theorems.  Each claim of the specification is settled below against the
definitions above.
-/

/-- C1 (amended): for the GLASSREPORT profile, a row whose non-empty order
and sealed_unit_id values both match an existing stored row is classified
Duplicate, and a row whose non-empty order matches an existing stored row
but is not a Duplicate is classified Resend; however, starting from an empty
glassreport table, loading one file containing two data rows that share
order 1001 and sealed_unit_id A1 classifies both rows New, because every row
is classified against the already-stored table and the file rows are
inserted only after the whole file has been classified. -/
theorem glassreport_classification_amended :
    (∀ (table : List Row) (cr : Row),
        getCol cr "order" ≠ "" → getCol cr "sealed_unit_id" ≠ "" →
        table.any (Glassreport.dupMatch (getCol cr "order")
          (getCol cr "sealed_unit_id")) = true →
        Glassreport.classify table cr = .Duplicate)
  ∧ (∀ (table : List Row) (cr : Row),
        getCol cr "order" ≠ "" →
        Glassreport.classify table cr ≠ .Duplicate →
        table.any (Glassreport.orderMatch (getCol cr "order")) = true →
        Glassreport.classify table cr = .Resend)
  ∧ (Glassreport.uploadCsvData none [] Glassreport.sampleFile).classes
      = [.New, .New] := by
  refine ⟨?_, ?_, by decide⟩
  · intro table cr h1 h2 h3
    simp [Glassreport.classify, bne_iff_ne, h1, h2, h3]
  · intro table cr h1 hnd h3
    by_cases hc : (getCol cr "order" != "" && getCol cr "sealed_unit_id" != ""
        && table.any (Glassreport.dupMatch (getCol cr "order")
             (getCol cr "sealed_unit_id"))) = true
    · exact absurd (by simp [Glassreport.classify, hc]) hnd
    · simp [Glassreport.classify, hc, bne_iff_ne, h1, h3]

/-- Witness for the amended C1 theorem: against a table already storing a row
with order 1001 and sealed_unit_id A1, a row repeating both values is
classified Duplicate and a row repeating only the order is classified
Resend. -/
theorem glassreport_classification_amended_witness :
    Glassreport.classify [[("order", "1001"), ("sealed_unit_id", "A1")]]
        [("order", "1001"), ("sealed_unit_id", "A1")] = .Duplicate
  ∧ Glassreport.classify [[("order", "1001"), ("sealed_unit_id", "A1")]]
        [("order", "1001"), ("sealed_unit_id", "A2")] = .Resend := by
  constructor
  · exact glassreport_classification_amended.1 _ _
      (by decide) (by decide) (by decide)
  · exact glassreport_classification_amended.2.1 _ _
      (by decide) (by decide) (by decide)

/-- C1 counterexample: loading the spec scenario file (two data rows sharing
order 1001 and sealed_unit_id A1) into an empty glassreport table classifies
the second row New, not Duplicate, and collects no duplicate entries. -/
theorem glassreport_sample_counterexample :
    (Glassreport.uploadCsvData none [] Glassreport.sampleFile).classes
        = [.New, .New]
  ∧ [Glassreport.RowClass.New, .New] ≠ [.New, .Duplicate]
  ∧ (Glassreport.uploadCsvData none [] Glassreport.sampleFile).duplicates
        = [] :=
  ⟨by decide, by decide, by decide⟩

/-- An insert loop whose failing index lies inside the batch raises, so the
loop yields none. -/
theorem execInserts_fail (k : Nat) :
    ∀ (rs : List Row) (i : Nat), i ≤ k → k < i + rs.length →
      Glassreport.execInserts (some k) rs i = none := by
  intro rs
  induction rs with
  | nil =>
    intro i h1 h2
    simp at h2
    omega
  | cons r rs ih =>
    intro i h1 h2
    by_cases hk : k = i
    · simp [Glassreport.execInserts, hk]
    · have hlt : i + 1 ≤ k := by omega
      have hrec : Glassreport.execInserts (some k) rs (i + 1) = none :=
        ih (i + 1) hlt (by simp at h2 ⊢; omega)
      simp [Glassreport.execInserts, hk, hrec]

/-- C2: when the insert of any row of the batch raises, GLASSREPORT upload
returns False and the committed table is exactly what it was before the
file: the whole batch is rolled back and no partial batch is committed. -/
theorem glassreport_batch_atomicity (table fileRows : List Row) (k : Nat)
    (hk : k < fileRows.length) :
    (Glassreport.uploadCsvData (some k) table fileRows).ok = false
  ∧ (Glassreport.uploadCsvData (some k) table fileRows).table = table := by
  have hnone : Glassreport.execInserts (some k)
      (fileRows.map Glassreport.completeRow) 0 = none :=
    execInserts_fail k _ 0 (Nat.zero_le k) (by simpa using hk)
  simp [Glassreport.uploadCsvData, hnone]

/-- Witness for C2: a ten-row file whose last insert fails leaves an
initially empty table with zero rows. -/
theorem glassreport_batch_atomicity_witness :
    9 < Glassreport.tenRows.length
  ∧ (Glassreport.uploadCsvData (some 9) [] Glassreport.tenRows).ok = false
  ∧ (Glassreport.uploadCsvData (some 9) [] Glassreport.tenRows).table = [] := by
  have h := glassreport_batch_atomicity [] Glassreport.tenRows 9 (by decide)
  exact ⟨by decide, h.1, h.2⟩

/-- Reading ORDER # from a complete_row gives the raw ORDER # value. -/
theorem wo2_getCol_completeRow (r : Row) :
    getCol (Workorder2.completeRow r) "ORDER #" = getCol r "ORDER #" := rfl

/-- Reading ORDER # from the inserted values gives the complete_row value. -/
theorem wo2_getCol_projectRow (cr : Row) :
    getCol (Workorder2.projectRow cr) "ORDER #" = getCol cr "ORDER #" := rfl

/-- C3: under the WORKORDER2 replace-on-conflict profile, uploading a row
with key K into a table without K and then uploading another row with the
same K leaves exactly one row for K, holding the second upload's values: the
matching rows are deleted before the new row is inserted. -/
theorem workorder2_replace_on_conflict (t0 : List Row) (r1 r2 : Row)
    (k : String) (hk : k ≠ "")
    (h1 : getCol r1 "ORDER #" = k) (h2 : getCol r2 "ORDER #" = k)
    (h0 : ∀ t ∈ t0, Workorder2.orderMatch k t = false) :
    Workorder2.uploadCsvData (Workorder2.uploadCsvData t0 [r1]) [r2]
      = t0 ++ [Workorder2.projectRow (Workorder2.completeRow r2)]
  ∧ (Workorder2.uploadCsvData (Workorder2.uploadCsvData t0 [r1]) [r2]).filter
      (Workorder2.orderMatch k)
      = [Workorder2.projectRow (Workorder2.completeRow r2)] := by
  have hany0 : t0.any (Workorder2.orderMatch k) = false := by
    rw [List.any_eq_false]
    intro t ht
    simp [h0 t ht]
  have hp1 : Workorder2.orderMatch k
      (Workorder2.projectRow (Workorder2.completeRow r1)) = true := by
    simp [Workorder2.orderMatch, wo2_getCol_projectRow, wo2_getCol_completeRow, h1]
  have e1 : Workorder2.uploadCsvData t0 [r1]
      = t0 ++ [Workorder2.projectRow (Workorder2.completeRow r1)] := by
    simp [Workorder2.uploadCsvData, Workorder2.processRow,
      wo2_getCol_completeRow, h1, hk, hany0]
  have hany1 : (t0 ++ [Workorder2.projectRow (Workorder2.completeRow r1)]).any
      (Workorder2.orderMatch k) = true := by
    simp [List.any_append, hp1]
  have hfil : (t0 ++ [Workorder2.projectRow (Workorder2.completeRow r1)]).filter
      (fun t => !Workorder2.orderMatch k t) = t0 := by
    rw [List.filter_append]
    have : t0.filter (fun t => !Workorder2.orderMatch k t) = t0 :=
      List.filter_eq_self.mpr (fun t ht => by simp [h0 t ht])
    simp [this, hp1]
  have e2 : Workorder2.uploadCsvData
      (t0 ++ [Workorder2.projectRow (Workorder2.completeRow r1)]) [r2]
      = t0 ++ [Workorder2.projectRow (Workorder2.completeRow r2)] := by
    simp only [Workorder2.uploadCsvData, List.foldl_cons, List.foldl_nil,
      Workorder2.processRow, wo2_getCol_completeRow, h2]
    rw [if_neg (by simp [hk]), if_pos (by simpa using hany1)]
    simp [hfil]
  refine ⟨by rw [e1, e2], ?_⟩
  rw [e1, e2, List.filter_append]
  have ht0 : t0.filter (Workorder2.orderMatch k) = [] :=
    List.filter_eq_nil_iff.mpr (fun t ht => by simp [h0 t ht])
  have hp2 : Workorder2.orderMatch k
      (Workorder2.projectRow (Workorder2.completeRow r2)) = true := by
    simp [Workorder2.orderMatch, wo2_getCol_projectRow, wo2_getCol_completeRow, h2]
  simp [ht0, hp2]

/-- Witness for C3: two one-row files sharing ORDER # W1 loaded in sequence
into an empty workorder2 table leave exactly the second file's row. -/
theorem workorder2_replace_on_conflict_witness :
    Workorder2.uploadCsvData
        (Workorder2.uploadCsvData [] [[("ORDER #", "W1"), ("PO", "P1")]])
        [[("ORDER #", "W1"), ("PO", "P2")]]
      = [] ++ [Workorder2.projectRow
          (Workorder2.completeRow [("ORDER #", "W1"), ("PO", "P2")])]
  ∧ (Workorder2.uploadCsvData
        (Workorder2.uploadCsvData [] [[("ORDER #", "W1"), ("PO", "P1")]])
        [[("ORDER #", "W1"), ("PO", "P2")]]).filter (Workorder2.orderMatch "W1")
      = [Workorder2.projectRow
          (Workorder2.completeRow [("ORDER #", "W1"), ("PO", "P2")])] := by
  have h := workorder2_replace_on_conflict [] [("ORDER #", "W1"), ("PO", "P1")]
    [("ORDER #", "W1"), ("PO", "P2")] "W1" (by decide) (by decide) (by decide)
    (by simp)
  exact ⟨h.1, h.2⟩

/-- Unfolding one step of the UPDATE rewrite. -/
theorem os_applyUpdate_cons (cols : List String) (cr : Row) (a : String)
    (b : Option String) (tl : Ordersummary.SRow) :
    Ordersummary.applyUpdate cols cr ((a, b) :: tl)
      = (if cols.contains a then (a, some (getCol cr a)) else (a, b))
          :: Ordersummary.applyUpdate cols cr tl := rfl

/-- Looking a column up after the UPDATE statement rewrote a stored row: a
column the row does not carry stays absent, a named column takes the
incoming value, and every other column keeps its stored value. -/
theorem os_applyUpdate_lookup (cols : List String) (cr : Row) (h : String) :
    ∀ (t : Ordersummary.SRow),
      (Ordersummary.applyUpdate cols cr t).lookup h
        = (t.lookup h).map
            (fun v => if cols.contains h then some (getCol cr h) else v) := by
  intro t
  induction t with
  | nil => simp [Ordersummary.applyUpdate]
  | cons p tl ih =>
    obtain ⟨a, b⟩ := p
    rw [os_applyUpdate_cons]
    by_cases hha : h = a
    · subst hha
      by_cases hm : cols.contains h = true
      · have hm2 : h ∈ cols := by simpa using hm
        rw [if_pos hm, List.lookup_cons, List.lookup_cons]
        simp [hm2]
      · have hm2 : h ∉ cols := by simpa using hm
        rw [if_neg hm, List.lookup_cons, List.lookup_cons]
        simp [hm2]
    · have hne : (h == a) = false := by simp [hha]
      by_cases hm : cols.contains a = true
      · rw [if_pos hm, List.lookup_cons, List.lookup_cons]
        simp [hne, ih]
      · rw [if_neg hm, List.lookup_cons, List.lookup_cons]
        simp [hne, ih]

/-- A key listed among the keys of an association list has a lookup value. -/
theorem os_lookup_isSome (t : Ordersummary.SRow) (h : String)
    (hmem : h ∈ t.map Prod.fst) : (t.lookup h).isSome = true := by
  induction t with
  | nil => simp at hmem
  | cons p tl ih =>
    obtain ⟨a, b⟩ := p
    by_cases hha : h = a
    · subst hha; simp [List.lookup]
    · have hne : (h == a) = false := by simp [hha]
      simp only [List.map_cons, List.mem_cons] at hmem
      rcases hmem with hmem | hmem
      · exact absurd hmem hha
      · simpa [List.lookup, hne] using ih hmem

/-- C4: for the ORDERSUMMARY update-if-blank profile, when the loaded row's
raw ORDER# value (bound before the trim loop) matches the stored row, each
column of the profile whose stored value is NULL or empty takes the loaded
trimmed value and each populated column keeps its stored value. -/
theorem ordersummary_update_if_blank (ex : Ordersummary.SRow) (r : Row)
    (k : String) (hk : k ≠ "")
    (hshape : ex.map Prod.fst = Ordersummary.expectedHeaders)
    (hexk : Ordersummary.getStored ex "ORDER#" = some k)
    (hrk : getCol r "ORDER#" = k) :
    ∀ h ∈ Ordersummary.expectedHeaders,
      Ordersummary.getStored ((Ordersummary.uploadCsvData [ex] [r]).headD []) h
        = (if Ordersummary.isBlank (Ordersummary.getStored ex h) then
             some (getCol (Ordersummary.completeRow r) h)
           else Ordersummary.getStored ex h) := by
  intro h hmem
  have hkm : Ordersummary.keyMatch k ex = true := by
    simp [Ordersummary.keyMatch, hexk]
  have hfind : ([ex]).find? (Ordersummary.keyMatch k) = some ex := by
    simp [List.find?, hkm]
  have hup : Ordersummary.uploadCsvData [ex] [r]
      = Ordersummary.processRow [ex] r := by
    simp [Ordersummary.uploadCsvData]
  have hpr : Ordersummary.processRow [ex] r
      = (if (Ordersummary.updateCols ex).isEmpty then [ex]
         else [Ordersummary.applyUpdate (Ordersummary.updateCols ex)
                (Ordersummary.completeRow r) ex]) := by
    simp only [Ordersummary.processRow, hrk]
    rw [if_neg (by simp [hk]), hfind]
    by_cases hcols : (Ordersummary.updateCols ex).isEmpty
    · simp [hcols]
    · simp [hcols, hkm]
  rw [hup, hpr]
  by_cases hcols : (Ordersummary.updateCols ex).isEmpty
  · have hnone : Ordersummary.isBlank (Ordersummary.getStored ex h) = false := by
      by_contra hb
      have hin : h ∈ Ordersummary.updateCols ex :=
        List.mem_filter.mpr ⟨hmem, by simpa using hb⟩
      rw [List.isEmpty_iff.mp hcols] at hin
      simp at hin
    simp [hcols, hnone]
  · have hvs : (ex.lookup h).isSome = true :=
      os_lookup_isSome ex h (by rw [hshape]; exact hmem)
    obtain ⟨v, hv⟩ := Option.isSome_iff_exists.mp hvs
    have hgs : Ordersummary.getStored ex h = v := by
      simp [Ordersummary.getStored, hv]
    have hmemcols : (Ordersummary.updateCols ex).contains h
        = Ordersummary.isBlank (Ordersummary.getStored ex h) := by
      by_cases hb : Ordersummary.isBlank (Ordersummary.getStored ex h) = true
      · rw [hb]
        exact List.elem_iff.mpr (List.mem_filter.mpr ⟨hmem, hb⟩)
      · simp only [Bool.not_eq_true] at hb
        rw [hb]
        by_contra hc
        simp only [Bool.not_eq_false] at hc
        have hf := (List.mem_filter.mp (List.elem_iff.mp hc)).2
        rw [hb] at hf
        simp at hf
    rw [if_neg hcols]
    simp only [List.headD_cons, Ordersummary.getStored, os_applyUpdate_lookup,
      hv, Option.map_some', Option.getD_some, hmemcols, hgs]

/-- Witness for C4: the scenario row leaves the populated CUST PO column
unchanged and fills the blank COMPANY column. -/
theorem ordersummary_update_if_blank_witness :
    Ordersummary.getStored
        ((Ordersummary.uploadCsvData [Ordersummary.scenarioStored]
            [Ordersummary.scenarioRow]).headD []) "CUST PO" = some "X"
  ∧ Ordersummary.getStored
        ((Ordersummary.uploadCsvData [Ordersummary.scenarioStored]
            [Ordersummary.scenarioRow]).headD []) "COMPANY" = some "NEWCO" := by
  have h := ordersummary_update_if_blank Ordersummary.scenarioStored
    Ordersummary.scenarioRow "1001" (by decide) (by decide) (by decide)
    (by decide)
  constructor
  · exact (h "CUST PO" (by decide)).trans (by decide)
  · exact (h "COMPANY" (by decide)).trans (by decide)

/-- C5 (amended): table provisioning is idempotent — the second call with the
same header list leaves the schema unchanged — because the table is created
only when absent and an existing table is left untouched; the freshly
created table carries every sanitised profile header, but no column is ever
added to a table that already exists. -/
theorem provisioning_idempotent (s : Option Provisioning.Schema)
    (headers : List String) :
    Provisioning.provision (Provisioning.provision s headers) headers
      = Provisioning.provision s headers
  ∧ (∀ hdr ∈ headers,
      Provisioning.cleanHeader hdr ∈ Provisioning.buildColumns headers)
  ∧ Provisioning.provision none headers
      = some (Provisioning.buildColumns headers)
  ∧ (∀ cols : Provisioning.Schema,
      Provisioning.provision (some cols) headers = some cols) := by
  refine ⟨?_, ?_, rfl, fun cols => rfl⟩
  · cases s <;> rfl
  · intro hdr hmem
    exact List.mem_cons_of_mem _
      (List.mem_append_left _ (List.mem_map_of_mem _ hmem))

/-- Witness for C5: provisioning the glassreport headers twice from an absent
table gives the same schema as provisioning once, and that schema carries the
order_date column. -/
theorem provisioning_idempotent_witness :
    Provisioning.provision
        (Provisioning.provision none Glassreport.expectedHeaders)
        Glassreport.expectedHeaders
      = Provisioning.provision none Glassreport.expectedHeaders
  ∧ Provisioning.cleanHeader "order_date"
      ∈ Provisioning.buildColumns Glassreport.expectedHeaders := by
  have h := provisioning_idempotent none Glassreport.expectedHeaders
  exact ⟨h.1, h.2.1 "order_date" (by decide)⟩

/-- C5 counterexample: a pre-existing table holding only the columns id and x
is left untouched by provisioning with the glassreport profile headers, so
the physical columns do not become a superset of the profile headers —
order_date is a profile header yet still absent afterwards. -/
theorem provisioning_superset_counterexample :
    Provisioning.provision (some ["id", "x"]) Glassreport.expectedHeaders
      = some ["id", "x"]
  ∧ "order_date" ∈ Glassreport.expectedHeaders
  ∧ "order_date" ∉ (["id", "x"] : List String) :=
  ⟨rfl, by decide, by decide⟩

/-- One scheduled step preserves the lock invariant: the path is in the set
exactly when a worker is running, and the two workers are never running at
the same time. -/
theorem monitor_step_preserves_inv :
    ∀ (s : Monitor.MState) (a : Bool),
      (s.inflight = (s.w1 == .running || s.w2 == .running)
        ∧ ¬(s.w1 = .running ∧ s.w2 = .running)) →
      ((Monitor.step s a).inflight
          = ((Monitor.step s a).w1 == .running
             || (Monitor.step s a).w2 == .running)
        ∧ ¬((Monitor.step s a).w1 = .running
            ∧ (Monitor.step s a).w2 = .running)) := by decide

/-- Any whole schedule preserves the lock invariant. -/
theorem monitor_run_inv (sched : List Bool) :
    ∀ (s : Monitor.MState),
      (s.inflight = (s.w1 == .running || s.w2 == .running)
        ∧ ¬(s.w1 = .running ∧ s.w2 = .running)) →
      ((Monitor.run s sched).inflight
          = ((Monitor.run s sched).w1 == .running
             || (Monitor.run s sched).w2 == .running)
        ∧ ¬((Monitor.run s sched).w1 = .running
            ∧ (Monitor.run s sched).w2 = .running)) := by
  induction sched with
  | nil => intro s h; simpa [Monitor.run] using h
  | cons a rest ih =>
    intro s h
    rw [Monitor.run]
    exact ih (Monitor.step s a) (monitor_step_preserves_inv s a h)

/-- Once worker one has executed and worker two was skipped, every further
step keeps it so. -/
theorem monitor_step_keeps_first :
    ∀ (s : Monitor.MState) (a : Bool),
      (Monitor.executed s.w1 = true ∧ s.w2 = .skipped) →
      (Monitor.executed (Monitor.step s a).w1 = true
        ∧ (Monitor.step s a).w2 = .skipped) := by decide

/-- Once worker two has executed and worker one was skipped, every further
step keeps it so. -/
theorem monitor_step_keeps_second :
    ∀ (s : Monitor.MState) (a : Bool),
      (Monitor.executed s.w2 = true ∧ s.w1 = .skipped) →
      (Monitor.executed (Monitor.step s a).w2 = true
        ∧ (Monitor.step s a).w1 = .skipped) := by decide

/-- Running any schedule keeps the pattern of one executed worker and one
skipped worker. -/
theorem monitor_run_keeps (rest : List Bool) :
    ∀ (s : Monitor.MState),
      ((Monitor.executed s.w1 = true ∧ s.w2 = .skipped) →
        (Monitor.executed (Monitor.run s rest).w1 = true
          ∧ (Monitor.run s rest).w2 = .skipped))
    ∧ ((Monitor.executed s.w2 = true ∧ s.w1 = .skipped) →
        (Monitor.executed (Monitor.run s rest).w2 = true
          ∧ (Monitor.run s rest).w1 = .skipped)) := by
  induction rest with
  | nil => intro s; constructor <;> (intro h; simpa [Monitor.run] using h)
  | cons a tail ih =>
    intro s
    constructor
    · intro h
      rw [Monitor.run]
      exact (ih (Monitor.step s a)).1 (monitor_step_keeps_first s a h)
    · intro h
      rw [Monitor.run]
      exact (ih (Monitor.step s a)).2 (monitor_step_keeps_second s a h)

/-- C6: submitting the same path from two concurrent detections gives
at-most-once execution.  First, under every schedule the two workers are
never processing the file at the same time.  Second, when both workers enter
process_file before either finishes (the two first scheduled steps belong to
the two different workers), exactly one of them ever executes the load, the
other returning False from the locked check.  Third, a running worker's
finishing step removes the path from the shared set. -/
theorem monitor_at_most_once :
    (∀ sched : List Bool,
        ¬((Monitor.run Monitor.initState sched).w1 = .running
          ∧ (Monitor.run Monitor.initState sched).w2 = .running))
  ∧ (∀ (a b : Bool) (rest : List Bool), a ≠ b →
        Monitor.executed (Monitor.run Monitor.initState (a :: b :: rest)).w1
          ≠ Monitor.executed (Monitor.run Monitor.initState (a :: b :: rest)).w2)
  ∧ (∀ s : Monitor.MState, s.w1 = .running →
        (Monitor.step s false).inflight = false
          ∧ (Monitor.step s false).w1 = .done) := by
  refine ⟨?_, ?_, by decide⟩
  · intro sched
    exact (monitor_run_inv sched Monitor.initState (by decide)).2
  · intro a b rest hab
    cases a
    · cases b
      · exact absurd rfl hab
      · have h2 : Monitor.run Monitor.initState (false :: true :: rest)
            = Monitor.run ⟨true, .running, .skipped⟩ rest := by
          rw [Monitor.run, Monitor.run]
          rfl
        rw [h2]
        have hk := (monitor_run_keeps rest ⟨true, .running, .skipped⟩).1
          (by decide)
        rw [hk.1, hk.2]
        decide
    · cases b
      · have h2 : Monitor.run Monitor.initState (true :: false :: rest)
            = Monitor.run ⟨true, .skipped, .running⟩ rest := by
          rw [Monitor.run, Monitor.run]
          rfl
        rw [h2]
        have hk := (monitor_run_keeps rest ⟨true, .skipped, .running⟩).2
          (by decide)
        rw [hk.1, hk.2]
        decide
      · exact absurd rfl hab

/-- Witness for C6: with the concrete schedule of worker one then worker two,
no state has both workers running, exactly one worker executes, and the
finishing step of a running worker clears the in-flight flag. -/
theorem monitor_at_most_once_witness :
    ¬((Monitor.run Monitor.initState [false, true]).w1 = .running
      ∧ (Monitor.run Monitor.initState [false, true]).w2 = .running)
  ∧ Monitor.executed (Monitor.run Monitor.initState [false, true]).w1
      ≠ Monitor.executed (Monitor.run Monitor.initState [false, true]).w2
  ∧ ((Monitor.step ⟨true, .running, .pending⟩ false).inflight = false
      ∧ (Monitor.step ⟨true, .running, .pending⟩ false).w1 = .done) := by
  have h := monitor_at_most_once
  exact ⟨h.1 [false, true], h.2.1 false true [] (by decide),
    h.2.2 ⟨true, .running, .pending⟩ rfl⟩

/-- C7: the safe transfer attempts the rename first and stops there on
success; when the rename fails and the byte-size verification of the copy
fails, the partial destination copy is deleted and the transfer returns
failure; when the verification succeeds the transfer returns success with
the destination in place, having deleted the source when the delete
succeeds, renamed it to its .processed name when the delete fails but the
marker rename succeeds, and left it in place when both fail; and in every
case the rows committed by the already-finished load are untouched. -/
theorem transfer_safely_spec (o : Transfer.Oracle) (s : Transfer.FsState) :
    (o.renameOk = true →
        Transfer.transferFileSafely o s
          = (true, { s with srcExists := false, dstExists := true,
                            dstSize := s.srcSize }))
  ∧ (o.renameOk = false → o.copiedSize ≠ s.srcSize →
        (Transfer.transferFileSafely o s).1 = false
        ∧ (Transfer.transferFileSafely o s).2.dstExists = false)
  ∧ (o.renameOk = false → o.copiedSize = s.srcSize →
        (Transfer.transferFileSafely o s).1 = true
        ∧ (Transfer.transferFileSafely o s).2.dstExists = true
        ∧ (Transfer.transferFileSafely o s).2.dstSize = s.srcSize
        ∧ (o.unlinkOk = true →
            (Transfer.transferFileSafely o s).2.srcExists = false)
        ∧ (o.unlinkOk = false → o.markOk = true →
            (Transfer.transferFileSafely o s).2.srcExists = false
            ∧ (Transfer.transferFileSafely o s).2.srcMarked = true)
        ∧ (o.unlinkOk = false → o.markOk = false →
            (Transfer.transferFileSafely o s).2.srcExists = s.srcExists))
  ∧ (Transfer.transferFileSafely o s).2.dbRows = s.dbRows := by
  obtain ⟨ren, cs, ul, mk⟩ := o
  cases ren
  · by_cases hcs : cs = s.srcSize
    · cases ul <;> cases mk <;>
        simp [Transfer.transferFileSafely, hcs]
    · have hb : (cs == s.srcSize) = false := by simpa using hcs
      cases ul <;> cases mk <;>
        simp [Transfer.transferFileSafely, hb, hcs]
  · simp [Transfer.transferFileSafely]

/-- Witness for C7: a failed rename followed by a five-byte partial copy of a
ten-byte source deletes the partial copy, reports failure, and leaves the
seven committed rows in place. -/
theorem transfer_safely_spec_witness :
    ((Transfer.transferFileSafely ⟨false, 5, true, true⟩
        ⟨true, 10, false, 0, false, 7⟩).1 = false
     ∧ (Transfer.transferFileSafely ⟨false, 5, true, true⟩
        ⟨true, 10, false, 0, false, 7⟩).2.dstExists = false)
  ∧ (Transfer.transferFileSafely ⟨false, 5, true, true⟩
        ⟨true, 10, false, 0, false, 7⟩).2.dbRows = 7 := by
  have h := transfer_safely_spec ⟨false, 5, true, true⟩
    ⟨true, 10, false, 0, false, 7⟩
  exact ⟨h.2.1 rfl (by decide), h.2.2.2⟩

/-- C8 (amended): the retrying connect of WINDOWSENTRY, CASING and
URBANCUTTING succeeds exactly when one of its three attempts succeeds, while
DatabaseService.connect and GLASSREPORTProcessor.connect make one single
attempt whose outcome is the result. -/
theorem connect_retry_semantics (oracle : Nat → Bool) :
    (Connect.retryingConnect oracle = true
      ↔ (oracle 0 = true ∨ oracle 1 = true ∨ oracle 2 = true))
  ∧ Connect.singleAttemptConnect oracle = oracle 0 := by
  constructor
  · cases h0 : oracle 0 <;> cases h1 : oracle 1 <;> cases h2 : oracle 2 <;>
      simp [Connect.retryingConnect, Connect.connectLoop, h0, h1, h2]
  · rfl

/-- Witness for C8: against a connection that fails once and then recovers,
the retrying connect succeeds while the single-attempt connect returns the
first attempt's failure. -/
theorem connect_retry_semantics_witness :
    Connect.retryingConnect Connect.flakyOnce = true
  ∧ Connect.singleAttemptConnect Connect.flakyOnce = Connect.flakyOnce 0 := by
  have h := connect_retry_semantics Connect.flakyOnce
  exact ⟨h.1.mpr (Or.inr (Or.inl (by decide))), h.2⟩

/-- C8 counterexample: a connection error on the first attempt that would
clear by the second attempt makes DatabaseService.connect and
GLASSREPORTProcessor.connect report failure immediately — the cited connect
does not retry — while the retrying connect of the other processors
succeeds. -/
theorem connect_single_attempt_counterexample :
    Connect.singleAttemptConnect Connect.flakyOnce = false
  ∧ Connect.retryingConnect Connect.flakyOnce = true := by decide

/-- Folding entries into the unique dict never produces two entries with the
same key. -/
theorem notifier_foldl_nodup (key : α → String) :
    ∀ (l acc : List α), (acc.map key).Nodup →
      ((l.foldl (Notifier.insertUnique key) acc).map key).Nodup := by
  intro l
  induction l with
  | nil => intro acc h; simpa using h
  | cons d rest ih =>
    intro acc h
    rw [List.foldl_cons]
    apply ih
    unfold Notifier.insertUnique
    by_cases hc : acc.any (fun e => key e == key d) = true
    · simpa [hc] using h
    · rw [if_neg (by simp [hc])]
      rw [List.map_append]
      refine List.Nodup.append h (by simp) ?_
      intro x hx
      simp only [List.map_cons, List.map_nil, List.mem_singleton]
      intro hy
      subst hy
      simp only [List.mem_map] at hx
      obtain ⟨e, he, hke⟩ := hx
      have : acc.any (fun e => key e == key d) = true :=
        List.any_eq_true.mpr ⟨e, he, by simp [hke]⟩
      exact hc this

/-- Every key of the input ends up among the keys of the unique dict. -/
theorem notifier_foldl_covers (key : α → String) :
    ∀ (l acc : List α) (d : α),
      (d ∈ l ∨ key d ∈ acc.map key) →
      key d ∈ (l.foldl (Notifier.insertUnique key) acc).map key := by
  intro l
  induction l with
  | nil =>
    intro acc d h
    rcases h with h | h
    · simp at h
    · simpa using h
  | cons e rest ih =>
    intro acc d h
    rw [List.foldl_cons]
    have hkeep : ∀ (x : α), key x ∈ acc.map key →
        key x ∈ (Notifier.insertUnique key acc e).map key := by
      intro x hx
      unfold Notifier.insertUnique
      by_cases hc : acc.any (fun q => key q == key e) = true
      · simpa [hc] using hx
      · rw [if_neg (by simp [hc]), List.map_append]
        exact List.mem_append_left _ hx
    rcases h with h | h
    · rcases List.mem_cons.mp h with rfl | h2
      · apply ih
        right
        unfold Notifier.insertUnique
        by_cases hc : acc.any (fun q => key q == key d) = true
        · obtain ⟨q, hq, hqe⟩ := List.any_eq_true.mp hc
          have : key q = key d := by simpa using hqe
          rw [if_pos hc]
          exact this ▸ List.mem_map_of_mem key hq
        · rw [if_neg (by simp [hc]), List.map_append]
          exact List.mem_append_right _ (by simp)
      · exact ih (Notifier.insertUnique key acc e) d (Or.inl h2)
    · exact ih (Notifier.insertUnique key acc e) d (Or.inr (hkeep d h))

/-- Every entry of the unique dict comes from the accumulator or the input. -/
theorem notifier_foldl_subset (key : α → String) :
    ∀ (l acc : List α) (x : α),
      x ∈ l.foldl (Notifier.insertUnique key) acc → x ∈ acc ∨ x ∈ l := by
  intro l
  induction l with
  | nil => intro acc x h; simp at h; exact Or.inl h
  | cons e rest ih =>
    intro acc x h
    rw [List.foldl_cons] at h
    rcases ih (Notifier.insertUnique key acc e) x h with h2 | h2
    · unfold Notifier.insertUnique at h2
      by_cases hc : acc.any (fun q => key q == key e) = true
      · rw [if_pos hc] at h2
        exact Or.inl h2
      · rw [if_neg (by simp [hc])] at h2
        rcases List.mem_append.mp h2 with h3 | h3
        · exact Or.inl h3
        · simp at h3
          subst h3
          exact Or.inr (List.mem_cons_self _ _)
    · exact Or.inr (List.mem_cons_of_mem _ h2)

/-- C9 (amended): before rendering, notify_duplicate and notify_resend
deduplicate the given entries by their order field: the rendered lines are
the deduplicated entries, which never repeat an order value, carry every
order value present in the input, and all come from the input. -/
theorem notifier_dedupe_by_order (dups : List Notifier.DupEntry)
    (resends : List Notifier.ResendEntry) :
    Notifier.notifyDuplicateLines dups
      = (Notifier.dedupeByKey Notifier.DupEntry.order dups).map
          Notifier.formatDupLine
  ∧ ((Notifier.dedupeByKey Notifier.DupEntry.order dups).map
        Notifier.DupEntry.order).Nodup
  ∧ (∀ d ∈ dups, d.order
        ∈ (Notifier.dedupeByKey Notifier.DupEntry.order dups).map
            Notifier.DupEntry.order)
  ∧ (∀ e ∈ Notifier.dedupeByKey Notifier.DupEntry.order dups, e ∈ dups)
  ∧ Notifier.notifyResendLines resends
      = (Notifier.dedupeByKey Notifier.ResendEntry.order resends).map
          Notifier.formatResendLine
  ∧ ((Notifier.dedupeByKey Notifier.ResendEntry.order resends).map
        Notifier.ResendEntry.order).Nodup
  ∧ (∀ d ∈ resends, d.order
        ∈ (Notifier.dedupeByKey Notifier.ResendEntry.order resends).map
            Notifier.ResendEntry.order)
  ∧ (∀ e ∈ Notifier.dedupeByKey Notifier.ResendEntry.order resends,
        e ∈ resends) := by
  refine ⟨rfl, ?_, ?_, ?_, rfl, ?_, ?_, ?_⟩
  · exact notifier_foldl_nodup _ dups [] (by simp)
  · intro d hd
    exact notifier_foldl_covers _ dups [] d (Or.inl hd)
  · intro e he
    rcases notifier_foldl_subset _ dups [] e he with h | h
    · simp at h
    · exact h
  · exact notifier_foldl_nodup _ resends [] (by simp)
  · intro d hd
    exact notifier_foldl_covers _ resends [] d (Or.inl hd)
  · intro e he
    rcases notifier_foldl_subset _ resends [] e he with h | h
    · simp at h
    · exact h

/-- Witness for C9: two duplicate entries sharing the order but differing in
sealed_unit_id render as one line for that order, and the resend list keeps
its single order. -/
theorem notifier_dedupe_by_order_witness :
    ((Notifier.dedupeByKey Notifier.DupEntry.order
        [⟨"1001", "A1", "d1"⟩, ⟨"1001", "A2", "d2"⟩]).map
          Notifier.DupEntry.order).Nodup
  ∧ ("1001" ∈ (Notifier.dedupeByKey Notifier.DupEntry.order
        [⟨"1001", "A1", "d1"⟩, ⟨"1001", "A2", "d2"⟩]).map
          Notifier.DupEntry.order)
  ∧ ("2001" ∈ (Notifier.dedupeByKey Notifier.ResendEntry.order
        [⟨"2001", "d3"⟩]).map Notifier.ResendEntry.order) := by
  have h := notifier_dedupe_by_order
    [⟨"1001", "A1", "d1"⟩, ⟨"1001", "A2", "d2"⟩] [⟨"2001", "d3"⟩]
  exact ⟨h.2.1, h.2.2.1 ⟨"1001", "A2", "d2"⟩ (by simp),
    h.2.2.2.2.2.2.1 ⟨"2001", "d3"⟩ (by simp)⟩

/-- C9 counterexample: two entries with distinct natural keys — the same
order, two different sealed_unit_id values — render as a single line, so the
rendered message does not contain one entry for each distinct natural-key
value. -/
theorem notifier_dedupe_counterexample :
    (([⟨"1001", "A1", "d1"⟩, ⟨"1001", "A2", "d2"⟩] :
        List Notifier.DupEntry).map
          (fun d => (d.order, d.sealed_unit_id))).dedup.length = 2
  ∧ (Notifier.notifyDuplicateLines
        [⟨"1001", "A1", "d1"⟩, ⟨"1001", "A2", "d2"⟩]).length = 1 := by
  constructor <;> decide

/-- The desktop uploader's duplicate check returns False for every model and
key. -/
theorem uploader_isDuplicate_false (model : Option String)
    (key : String × Option String) :
    Uploader.isDuplicate model key = false := by
  cases model <;> rfl

/-- One loop step of _push_rows never takes the duplicate branch: it skips
empty records and pushes everything else. -/
theorem uploader_pushStep_eq (model : Option String) (pk sk : Option String)
    (st : Uploader.PushStats) (r : Uploader.Rec) :
    Uploader.pushStep model pk sk st r
      = (if r.isEmpty then st else { st with rows := st.rows + 1 }) := by
  unfold Uploader.pushStep
  by_cases hre : r.isEmpty = true
  · simp [hre]
  · rw [if_neg hre, if_neg hre]
    cases hb : Uploader.buildDuplicateKey r pk sk with
    | none => rfl
    | some key => simp [uploader_isDuplicate_false]

/-- The whole _push_rows loop leaves the duplicate counters of the starting
state untouched and counts every non-empty record as a pushed row. -/
theorem uploader_foldl_stats (model : Option String) (pk sk : Option String) :
    ∀ (records : List Uploader.Rec) (st : Uploader.PushStats),
      (records.foldl (Uploader.pushStep model pk sk) st).duplicates
          = st.duplicates
      ∧ (records.foldl (Uploader.pushStep model pk sk) st).dupRecords
          = st.dupRecords
      ∧ (records.foldl (Uploader.pushStep model pk sk) st).logRecords
          = st.logRecords
      ∧ (records.foldl (Uploader.pushStep model pk sk) st).rows
          = st.rows + (records.filter (fun r => !r.isEmpty)).length := by
  intro records
  induction records with
  | nil => intro st; simp
  | cons r rest ih =>
    intro st
    rw [List.foldl_cons, uploader_pushStep_eq]
    by_cases hre : r.isEmpty = true
    · rw [if_pos hre]
      have h := ih st
      simp only [List.filter_cons, hre]
      simpa using h
    · rw [if_neg hre]
      have h := ih { st with rows := st.rows + 1 }
      simp only [Bool.not_eq_true] at hre
      simp only [List.filter_cons, hre]
      refine ⟨h.1, h.2.1, h.2.2.1, ?_⟩
      rw [h.2.2.2]
      simp only [Bool.not_false, if_pos, List.length_cons]
      omega

/-- C10: in the Odoo desktop uploader the duplicate check is False for every
model and key, so _push_rows skips no row as a duplicate, records no
duplicate, creates no duplicate log record, and reports a duplicates count
of zero while pushing every non-empty mapped record. -/
theorem uploader_never_duplicate (model : Option String)
    (pk sk : Option String) (records : List Uploader.Rec) :
    (∀ key, Uploader.isDuplicate model key = false)
  ∧ (Uploader.pushRows model pk sk records).duplicates = 0
  ∧ (Uploader.pushRows model pk sk records).dupRecords = []
  ∧ (Uploader.pushRows model pk sk records).logRecords = 0
  ∧ (Uploader.pushRows model pk sk records).rows
      = (records.filter (fun r => !r.isEmpty)).length := by
  have h := uploader_foldl_stats model pk sk records
    { rows := 0, duplicates := 0, dupRecords := [], logRecords := 0 }
  refine ⟨fun key => uploader_isDuplicate_false model key, ?_, ?_, ?_, ?_⟩
  · simpa [Uploader.pushRows] using h.1
  · simpa [Uploader.pushRows] using h.2.1
  · simp [Uploader.pushRows, h.2.1]
  · simpa [Uploader.pushRows] using h.2.2.2

/-- Witness for C10: a concrete file with two mapped records and one empty
record reports zero duplicates and two pushed rows. -/
theorem uploader_never_duplicate_witness :
    (Uploader.pushRows (some "glass.report.record") (some "order_ref")
        (some "sealed_unit_id")
        [[("order_ref", "1001"), ("sealed_unit_id", "A1")], [],
         [("order_ref", "1001"), ("sealed_unit_id", "A1")]]).duplicates = 0
  ∧ (Uploader.pushRows (some "glass.report.record") (some "order_ref")
        (some "sealed_unit_id")
        [[("order_ref", "1001"), ("sealed_unit_id", "A1")], [],
         [("order_ref", "1001"), ("sealed_unit_id", "A1")]]).rows = 2 := by
  have h := uploader_never_duplicate (some "glass.report.record")
    (some "order_ref") (some "sealed_unit_id")
    [[("order_ref", "1001"), ("sealed_unit_id", "A1")], [],
     [("order_ref", "1001"), ("sealed_unit_id", "A1")]]
  exact ⟨h.2.1, h.2.2.2.2.trans (by decide)⟩
